import Mathlib

/-!
Verification of the detection-result post-processing and aggregation pipeline
of the yoro_app repository (src/yolo_model_manager.py, src/ui_components.py,
src/app.py), shallowly embedded in Lean 4.

Python floats are modelled by `Rat` (the properties at issue are about
control flow, validation, ordering and counting, not rounding), Python
`None`/exception outcomes by `Option`/`Except`, and Python list indexing
(including negative indices and `IndexError`) by `pyGet`.
-/

/-- The fixed 80-entry COCO class table returned by
`YOLOModelLoader.get_coco_classes` (yolo_model_manager.py lines 130-141). -/
def cocoClasses : List String :=
  ["person", "bicycle", "car", "motorcycle", "airplane", "bus", "train", "truck", "boat",
   "traffic light", "fire hydrant", "stop sign", "parking meter", "bench", "bird", "cat",
   "dog", "horse", "sheep", "cow", "elephant", "bear", "zebra", "giraffe", "backpack",
   "umbrella", "handbag", "tie", "suitcase", "frisbee", "skis", "snowboard", "sports ball",
   "kite", "baseball bat", "baseball glove", "skateboard", "surfboard", "tennis racket",
   "bottle", "wine glass", "cup", "fork", "knife", "spoon", "bowl", "banana", "apple",
   "sandwich", "orange", "broccoli", "carrot", "hot dog", "pizza", "donut", "cake",
   "chair", "couch", "potted plant", "bed", "dining table", "toilet", "tv", "laptop",
   "mouse", "remote", "keyboard", "cell phone", "microwave", "oven", "toaster", "sink",
   "refrigerator", "book", "clock", "vase", "scissors", "teddy bear", "hair drier", "toothbrush"]

/-- Python list indexing `xs[i]` for an `int` index: a negative index counts
from the end of the list; an index out of range raises `IndexError`, modelled
here as `none`. -/
def pyGet (xs : List String) (i : Int) : Option String :=
  let j : Int := if i < 0 then (xs.length : Int) + i else i
  if 0 ≤ j then xs.get? j.toNat else none

/-- One raw per-object prediction as read off the model output tensors in
`YOLODetectionProcessor.run_inference` (a box row of `boxes.xyxy`, a score of
`boxes.conf`, an integer class id of `boxes.cls`). -/
structure RawPred where
  box : Rat × Rat × Rat × Rat
  conf : Rat
  cls : Int
deriving DecidableEq, Repr

/-- The `result.boxes` container (rows of raw predictions). -/
structure RawBoxes where
  preds : List RawPred
deriving DecidableEq, Repr

/-- One element of the `results` list returned by the model call; `boxes` is
`None` when the result carries no boxes container. -/
structure RawResult where
  boxes : Option RawBoxes
deriving DecidableEq, Repr

/-- The normalized detection result dictionary built by
`YOLODetectionProcessor.run_inference` (yolo_model_manager.py lines 202-208);
the `inference_time` entry is timing metadata and is omitted from the model. -/
structure DetectionResult where
  boxes : List (Rat × Rat × Rat × Rat)
  scores : List Rat
  class_ids : List Int
  class_names : List String
deriving DecidableEq, Repr

/-- The list comprehension
`[coco_classes[class_id] for class_id in class_ids]` (line 200): left-to-right
lookups, an `IndexError` on any element aborts the whole comprehension. -/
def resolveNames : List Int → Option (List String)
  | [] => some []
  | id :: rest =>
    match pyGet cocoClasses id with
    | none => none
    | some n =>
      match resolveNames rest with
      | none => none
      | some ns => some (n :: ns)

/-- `YOLODetectionProcessor.run_inference` (yolo_model_manager.py lines
168-236), restricted to its result-parsing stage: the model invocation itself
is the external gateway, so the function is given the `results` value the
gateway produced.  `if results and len(results) > 0` is non-emptiness of the
list; a `boxes is None` container yields `None`; an `IndexError` from the
class-name comprehension is caught by the enclosing `except` and yields
`None`.  When `debug_mode` is true the debug block evaluates
`np.max(confidence_scores)` (line 214), which raises `ValueError` on an empty
score array; that exception is likewise caught and turns the call into
`None`. -/
def YOLODetectionProcessor.run_inference (debug_mode : Bool)
    (results : List RawResult) : Option DetectionResult :=
  match results with
  | [] => none
  | r :: _ =>
    match r.boxes with
    | none => none
    | some bx =>
      match resolveNames (bx.preds.map (·.cls)) with
      | none => none
      | some names =>
        if debug_mode && bx.preds.isEmpty then none
        else
          some { boxes := bx.preds.map (·.box)
                 scores := bx.preds.map (·.conf)
                 class_ids := bx.preds.map (·.cls)
                 class_names := names }

/-- The fixed 10-colour palette of
`YOLODetectionProcessor.create_visualization` (yolo_model_manager.py lines
268-271). -/
def visColors : List String :=
  ["#FF0000", "#00FF00", "#0000FF", "#FFFF00", "#FF00FF",
   "#00FFFF", "#FFA500", "#800080", "#008000", "#800000"]

/-- `colors[i % len(colors)]` (line 287): the colour drawn for the item at
position `i` of the zipped `(boxes, scores, class_names)` sequence. -/
def colorAt (i : Nat) : String :=
  visColors.getD (i % visColors.length) ""

/-- Length of `zip(boxes, scores, class_names)` iterated by the drawing loop
(line 283): the shortest of the three sequences. -/
def renderLength (dr : DetectionResult) : Nat :=
  min (min dr.boxes.length dr.scores.length) dr.class_names.length

/-- The sequence of box colours drawn by
`YOLODetectionProcessor.create_visualization`, one per loop iteration. -/
def renderColors (dr : DetectionResult) : List String :=
  (List.range (renderLength dr)).map colorAt

/-- A numpy floating-point scalar: `np.mean` of an empty array is `nan` (it
warns but does not raise). -/
inductive NpFloat where
  | nan : NpFloat
  | val : Rat → NpFloat
deriving DecidableEq, Repr

/-- `np.mean(scores)`: `nan` on an empty array, otherwise the mean. -/
def npMean (scores : List Rat) : NpFloat :=
  match scores with
  | [] => NpFloat.nan
  | s => NpFloat.val (s.sum / (s.length : Rat))

/-- `np.max(scores)`: raises `ValueError` on an empty array. -/
def npMax (scores : List Rat) : Except String Rat :=
  match scores with
  | [] => Except.error "ValueError: zero-size array to reduction operation maximum"
  | x :: xs => Except.ok (xs.foldl max x)

/-- `np.min(scores)`: raises `ValueError` on an empty array. -/
def npMin (scores : List Rat) : Except String Rat :=
  match scores with
  | [] => Except.error "ValueError: zero-size array to reduction operation minimum"
  | x :: xs => Except.ok (xs.foldl min x)

/-- Lexicographic comparison of character sequences by code point, the order
numpy and Python use on the ASCII class names at issue. -/
def charListLe : List Char → List Char → Bool
  | [], _ => true
  | _ :: _, [] => false
  | a :: as, b :: bs =>
    if a.toNat < b.toNat then true
    else if b.toNat < a.toNat then false
    else charListLe as bs

/-- String comparison via `charListLe` on the underlying characters. -/
def pyStrLe (a b : String) : Bool :=
  charListLe a.data b.data

/-- `np.unique(class_names, return_counts=True)`: the distinct names sorted
ascending, each paired with its number of occurrences.  `List.insertionSort`
produces the same output as any sort of the deduplicated list. -/
def npUniqueCounts (names : List String) : List (String × Nat) :=
  (List.insertionSort (fun a b => pyStrLe a b = true) names.dedup).map
    (fun c => (c, names.count c))

/-- One step of the Python dict-counting idiom
`counts[class_name] = counts.get(class_name, 0) + 1`: increment the (unique)
entry for the key if present, otherwise append a fresh entry at the end
(Python dicts preserve insertion order). -/
def bumpCount : List (String × Nat) → String → List (String × Nat)
  | [], k => [(k, 1)]
  | (k', c) :: rest, k =>
    if k' = k then (k', c + 1) :: rest else (k', c) :: bumpCount rest k

/-- The per-class count mapping built by a single left-to-right pass over the
class-name sequence: `ResultsManager.display_detection_results`
(ui_components.py lines 292-298) and `YOLOApp._display_detection_statistics`
(app.py lines 302-306) both build exactly this mapping. -/
def classCounts (names : List String) : List (String × Nat) :=
  names.foldl bumpCount []

/-- `sum(per_class_counts.values())`. -/
def sumVals (m : List (String × Nat)) : Nat :=
  (m.map Prod.snd).sum

/-- Python `sorted(class_counts.items(), key=lambda x: x[1], reverse=True)`
(app.py line 309): a stable sort by descending count; ties keep the
insertion order of the mapping.  `List.insertionSort` with this total
preorder is stable, hence agrees with Python's sort. -/
def pySortedDescByCount (l : List (String × Nat)) : List (String × Nat) :=
  List.insertionSort (fun a b => b.2 ≤ a.2) l

/-- Modelled from the spec (§4.2 ordering policy), for comparison with the
code: sort `per_class_counts` by descending count, ties broken by ascending
class name. -/
def specDisplayOrder (l : List (String × Nat)) : List (String × Nat) :=
  List.insertionSort (fun a b => b.2 < a.2 ∨ (a.2 = b.2 ∧ pyStrLe a.1 b.1 = true)) l

/-- `ResultsManager.display_detection_results` (ui_components.py lines
252-302), reduced to the values it computes: the detection count, the mean
confidence `sum(scores)/len(scores)` — a `ZeroDivisionError` when `scores`
is empty — and the per-class count mapping enumerated in insertion order.
(The initial `if not detection_result` guard only fires for an absent/empty
dict, never for a populated result dictionary.) -/
def ResultsManager.display_detection_results (dr : DetectionResult) :
    Except String (Nat × Rat × List (String × Nat)) :=
  if dr.scores.length = 0 then
    Except.error "ZeroDivisionError: division by zero"
  else
    Except.ok (dr.boxes.length, dr.scores.sum / (dr.scores.length : Rat),
      classCounts dr.class_names)

/-- `YOLODebugInfo.display_detection_stats` (yolo_model_manager.py lines
367-414), reduced to the values it computes in order: count, `np.mean`,
`np.max`, `np.min` of the scores, and the per-class counts enumerated via
`np.unique`.  The `np.max` call raises on an empty result. -/
def YOLODebugInfo.display_detection_stats (dr : DetectionResult) :
    Except String (Nat × NpFloat × Rat × Rat × List (String × Nat)) := do
  let meanv := npMean dr.scores
  let mx ← npMax dr.scores
  let mn ← npMin dr.scores
  Except.ok (dr.boxes.length, meanv, mx, mn, npUniqueCounts dr.class_names)

/-- One row of an ultralytics `results[0].boxes` object as read by app.py:
`int(box.cls[0])` and `box.conf`. -/
structure UltraBox where
  cls : Nat
  conf : Rat
deriving DecidableEq, Repr

/-- The `results[0].boxes` container of the ultralytics result object. -/
structure UltraBoxes where
  rows : List UltraBox
deriving DecidableEq, Repr

/-- The raw ultralytics result object stored by app.py in
`st.session_state.detection_results`: an optional boxes container plus the
model's id-to-name table `results.names` (identical to the COCO table for
the bundled models, with ids indexing the table). -/
structure UltraResult where
  boxes : Option UltraBoxes
  names : List String
deriving DecidableEq, Repr

/-- A displayed statistic: the code renders either a number or the literal
string N/A. -/
inductive Metric where
  | na : Metric
  | val : Rat → Metric
deriving DecidableEq, Repr

/-- The values rendered by `YOLOApp._display_detection_statistics`. -/
structure AppStats where
  count : Nat
  meanConf : Metric
  maxConf : Metric
  minConf : Metric
  classDisplay : List (String × Nat)
deriving DecidableEq, Repr

/-- `YOLOApp._display_detection_statistics` (app.py lines 263-310): each
metric is guarded by `results.boxes is not None and len(results.boxes) > 0`
and rendered as N/A otherwise; the per-class section is shown only under the
same guard, built by the dict-counting pass keyed by
`results.names[class_id]` and enumerated via
`sorted(..., key=lambda x: x[1], reverse=True)`. -/
def YOLOApp.display_detection_statistics (r : UltraResult) : AppStats :=
  match r.boxes with
  | none => ⟨0, Metric.na, Metric.na, Metric.na, []⟩
  | some bx =>
    match bx.rows with
    | [] => ⟨0, Metric.na, Metric.na, Metric.na, []⟩
    | b :: bs =>
      let confs := (b :: bs).map (·.conf)
      { count := (b :: bs).length
        meanConf := Metric.val (confs.sum / (confs.length : Rat))
        maxConf := Metric.val ((bs.map (·.conf)).foldl max b.conf)
        minConf := Metric.val ((bs.map (·.conf)).foldl min b.conf)
        classDisplay := pySortedDescByCount
          (classCounts ((b :: bs).map (fun x => r.names.getD x.cls ""))) }

/-- The loaded model object; only its identity matters to the control flow. -/
structure YOLOModel where
  name : String
deriving DecidableEq, Repr

/-- Environment outcome of `YOLOModelLoader.load_model`: either the YOLO
constructor returns a model or it raises. -/
inductive LoadOutcome where
  | ok : YOLOModel → LoadOutcome
  | fails : String → LoadOutcome
deriving DecidableEq, Repr

/-- Environment outcome of invoking the loaded model (the Model Gateway):
either it raises or it returns a list of result objects. -/
inductive GatewayOutcome where
  | raises : String → GatewayOutcome
  | returns : List UltraResult → GatewayOutcome
deriving DecidableEq, Repr

/-- `YOLOModelLoader.load_model` (yolo_model_manager.py lines 20-38): on an
exception it shows `st.error` and returns `None`.  Returns the model option
together with the user-visible messages emitted. -/
def YOLOModelLoader.load_model (outcome : LoadOutcome) :
    Option YOLOModel × List String :=
  match outcome with
  | LoadOutcome.ok m => (some m, [])
  | LoadOutcome.fails e => (none, ["モデルの読み込みに失敗しました: " ++ e])

/-- `YOLOModelManager.detect_objects` (yolo_model_manager.py lines 443-475):
with no model, shows an error and returns `None`; a gateway exception is
caught, shown via `st.error`, and converted to `None`; otherwise
`results[0] if results else None`.  Returns the result option together with
the user-visible messages emitted. -/
def YOLOModelManager.detect_objects (model : Option YOLOModel)
    (gw : GatewayOutcome) : Option UltraResult × List String :=
  match model with
  | none => (none, ["モデルが読み込まれていません"])
  | some _ =>
    match gw with
    | GatewayOutcome.raises e => (none, ["検出中にエラーが発生しました: " ++ e])
    | GatewayOutcome.returns rs =>
      match rs with
      | [] => (none, [])
      | r :: _ => (some r, [])

/-- The session state read and written by the detection tab of app.py:
`st.session_state.detection_results`, `st.session_state.model_loaded`, the
manager's `self.model`, and the stream of user-visible status messages. -/
structure AppState where
  detection_results : Option UltraResult
  model_loaded : Bool
  model : Option YOLOModel
  messages : List String
deriving DecidableEq, Repr

/-- The detect-button click handler of `YOLOApp._display_detection_tab`
(app.py lines 178-199).  `YOLOModelManager.load_model` stores whatever the
loader produced in `self.model`, ignores its own boolean return value at
this call site, and the handler then sets `model_loaded = True`
unconditionally;  `detect_objects` runs next and its result — possibly
`None` — is assigned to `detection_results`;  since both callees catch their
exceptions internally, the handler's own `except` branch is not reached and
`st.success` always fires. -/
def runDetectionClick (s : AppState) (load : LoadOutcome)
    (gw : GatewayOutcome) : AppState :=
  let s1 :=
    if s.model_loaded then s
    else
      let lm := YOLOModelLoader.load_model load
      { s with model := lm.1
               messages := s.messages ++ lm.2
               model_loaded := true }
  let det := YOLOModelManager.detect_objects s1.model gw
  { s1 with detection_results := det.1
            messages := s1.messages ++ det.2 ++ ["検出完了！"] }

lemma pyGet_nonneg (xs : List String) (i : Int) (h : 0 ≤ i) :
    pyGet xs i = xs.get? i.toNat := by
  unfold pyGet
  simp [Int.not_lt.mpr h, h]

lemma pyGet_ge_len (xs : List String) (i : Int) (h : (xs.length : Int) ≤ i) :
    pyGet xs i = none := by
  have h0 : (0 : Int) ≤ i := le_trans (Int.ofNat_nonneg _) h
  rw [pyGet_nonneg xs i h0]
  apply List.get?_eq_none.mpr
  omega

lemma pyGet_neg (xs : List String) (i : Int) (h1 : -(xs.length : Int) ≤ i)
    (h2 : i < 0) : pyGet xs i = xs.get? ((xs.length : Int) + i).toNat := by
  unfold pyGet
  rw [if_pos h2, if_pos (by omega)]

lemma resolveNames_valid (ids : List Int)
    (h : ∀ id ∈ ids, 0 ≤ id ∧ id < (cocoClasses.length : Int)) :
    resolveNames ids = some (ids.map (fun id => cocoClasses.getD id.toNat "")) := by
  induction ids with
  | nil => rfl
  | cons a as ih =>
    obtain ⟨h1, h2⟩ := h a (by simp)
    have hlt : a.toNat < cocoClasses.length := by omega
    have hg : pyGet cocoClasses a = some (cocoClasses.getD a.toNat "") := by
      rw [pyGet_nonneg cocoClasses a h1, List.getD_eq_get?, List.get?_eq_get hlt]
      rfl
    simp [resolveNames, hg, ih (fun id hid => h id (List.mem_cons_of_mem a hid))]

lemma resolveNames_none (ids : List Int) (id : Int) (hmem : id ∈ ids)
    (hfail : pyGet cocoClasses id = none) : resolveNames ids = none := by
  induction ids with
  | nil => cases hmem
  | cons a as ih =>
    rcases List.mem_cons.mp hmem with rfl | hmem2
    · simp [resolveNames, hfail]
    · cases hpa : pyGet cocoClasses a <;> simp [resolveNames, hpa, ih hmem2]

lemma resolveNames_spec (ids : List Int) (ns : List String)
    (h : resolveNames ids = some ns) :
    ns.length = ids.length ∧
      ∀ (i : Nat) (hi : i < ids.length) (hj : i < ns.length),
        pyGet cocoClasses (ids.get ⟨i, hi⟩) = some (ns.get ⟨i, hj⟩) := by
  induction ids generalizing ns with
  | nil =>
    simp only [resolveNames, Option.some.injEq] at h
    subst h
    exact ⟨rfl, fun i hi => absurd hi (by simp)⟩
  | cons a as ih =>
    cases hpa : pyGet cocoClasses a with
    | none => simp [resolveNames, hpa] at h
    | some n =>
      cases hra : resolveNames as with
      | none => simp [resolveNames, hpa, hra] at h
      | some ms =>
        have hns : ns = n :: ms := by
          simp [resolveNames, hpa, hra] at h
          exact h.symm
        subst hns
        obtain ⟨hlen, hidx⟩ := ih ms hra
        refine ⟨by simp [hlen], ?_⟩
        intro i hi hj
        cases i with
        | zero => simpa using hpa
        | succ k =>
          simpa using hidx k (by simpa using hi) (by simpa using hj)

/-- Inversion of a successful `run_inference` call: the results list is
non-empty, its head carries a boxes container, the class names resolved, and
the produced fields are the per-field projections of the raw predictions. -/
lemma run_inference_inv (debug : Bool) (results : List RawResult)
    (dr : DetectionResult)
    (h : YOLODetectionProcessor.run_inference debug results = some dr) :
    ∃ r rest bx, results = r :: rest ∧ r.boxes = some bx ∧
      resolveNames (bx.preds.map (·.cls)) = some dr.class_names ∧
      dr.boxes = bx.preds.map (·.box) ∧ dr.scores = bx.preds.map (·.conf) ∧
      dr.class_ids = bx.preds.map (·.cls) := by
  cases results with
  | nil => simp [YOLODetectionProcessor.run_inference] at h
  | cons r rest =>
    cases hb : r.boxes with
    | none => simp [YOLODetectionProcessor.run_inference, hb] at h
    | some bx =>
      cases hrn : resolveNames (bx.preds.map (·.cls)) with
      | none => simp [YOLODetectionProcessor.run_inference, hb, hrn] at h
      | some names =>
        by_cases hdbg : (debug && bx.preds.isEmpty) = true
        · simp [YOLODetectionProcessor.run_inference, hb, hrn, hdbg] at h
        · have hdr : dr = { boxes := bx.preds.map (·.box)
                            scores := bx.preds.map (·.conf)
                            class_ids := bx.preds.map (·.cls)
                            class_names := names } := by
            simp [YOLODetectionProcessor.run_inference, hb, hrn, hdbg] at h
            exact h.symm
          subst hdr
          exact ⟨r, rest, bx, rfl, hb, hrn, rfl, rfl, rfl⟩

/-- C1, counterexample: a raw prediction with confidence 6/5 = 1.2, outside
[0, 1], is NOT rejected by `run_inference`: a `DetectionResult` is produced
and the out-of-range score 1.2 appears in it unchanged. -/
theorem C1_cex :
    YOLODetectionProcessor.run_inference false
        [{boxes := some ⟨[⟨(10, 10, 50, 50), 6/5, 0⟩]⟩}] =
      some ⟨[(10, 10, 50, 50)], [6/5], [0], ["person"]⟩
    ∧ (1 : Rat) < 6/5 :=
  ⟨rfl, by norm_num⟩

/-- C1, amended: `run_inference` performs no validation of confidence values
at all — whenever the class names resolve (and the result is produced), the
raw scores are copied into the `DetectionResult` verbatim, neither rejected
nor clamped, whatever their values. -/
theorem C1_no_confidence_validation (debug : Bool) (bx : RawBoxes)
    (rest : List RawResult) (ns : List String)
    (hres : resolveNames (bx.preds.map (·.cls)) = some ns)
    (hne : bx.preds ≠ []) :
    YOLODetectionProcessor.run_inference debug ({boxes := some bx} :: rest) =
      some { boxes := bx.preds.map (·.box), scores := bx.preds.map (·.conf),
             class_ids := bx.preds.map (·.cls), class_names := ns } := by
  have hemp : bx.preds.isEmpty = false := by
    cases hp : bx.preds with
    | nil => exact absurd hp hne
    | cons a as => rfl
  simp [YOLODetectionProcessor.run_inference, hres, hemp]

/-- C1 witness: the amended statement applied to the 1.2-confidence input of
Scenario D (with the debug flag on, so both branches are exercised). -/
theorem C1_no_confidence_validation_w :
    YOLODetectionProcessor.run_inference true
        [{boxes := some ⟨[⟨(10, 10, 50, 50), 6/5, 0⟩]⟩}] =
      some ⟨[(10, 10, 50, 50)], [6/5], [0], ["person"]⟩ :=
  C1_no_confidence_validation true ⟨[⟨(10, 10, 50, 50), 6/5, 0⟩]⟩ []
    ["person"] rfl (by simp)

/-- C3, counterexample: with `debug_mode=True`, a raw output whose container
is present but holds zero predictions yields `None` — exactly the same
outcome as a structurally absent raw output — because the debug statistics
block raises on the empty score array; the two outcomes are conflated and no
empty `DetectionResult` is produced. -/
theorem C3_cex :
    YOLODetectionProcessor.run_inference true [{boxes := some ⟨[]⟩}] = none
    ∧ YOLODetectionProcessor.run_inference true [] = none :=
  ⟨rfl, rfl⟩

/-- C3, amended: with `debug_mode=False`, zero predictions yield a
`DetectionResult` with empty sequences (a success) while an empty results
list or an absent boxes container yields `None` — the outcomes are
distinguishable; with `debug_mode=True`, however, zero predictions also
yield `None`, conflated with the absent case. -/
theorem C3_zero_vs_absent :
    (∀ rest : List RawResult,
      YOLODetectionProcessor.run_inference false ({boxes := some ⟨[]⟩} :: rest) =
        some ⟨[], [], [], []⟩)
    ∧ (∀ debug : Bool, YOLODetectionProcessor.run_inference debug [] = none)
    ∧ (∀ (debug : Bool) (rest : List RawResult),
        YOLODetectionProcessor.run_inference debug ({boxes := none} :: rest) = none)
    ∧ (∀ rest : List RawResult,
        YOLODetectionProcessor.run_inference true ({boxes := some ⟨[]⟩} :: rest) = none) :=
  ⟨fun _ => rfl, fun debug => rfl, fun debug _ => by cases debug <;> rfl, fun _ => rfl⟩

/-- C7, confirmed: in every normalized result, `class_names` has one entry
per `class_id`, each `class_name` is exactly the class-table lookup
`coco_classes[class_id]` performed by the source (for the non-negative ids
the model emits, plain forward indexing into the fixed 80-entry table), and
normalization of the same raw output is deterministic: any two results it
yields are identical. -/
theorem C7_class_name_resolution (debug : Bool) (results : List RawResult)
    (dr : DetectionResult)
    (h : YOLODetectionProcessor.run_inference debug results = some dr) :
    dr.class_names.length = dr.class_ids.length
    ∧ (∀ (i : Nat) (hi : i < dr.class_ids.length) (hj : i < dr.class_names.length),
        pyGet cocoClasses (dr.class_ids.get ⟨i, hi⟩) = some (dr.class_names.get ⟨i, hj⟩))
    ∧ (∀ (i : Nat) (hi : i < dr.class_ids.length) (hj : i < dr.class_names.length),
        0 ≤ dr.class_ids.get ⟨i, hi⟩ →
        cocoClasses.get? (dr.class_ids.get ⟨i, hi⟩).toNat =
          some (dr.class_names.get ⟨i, hj⟩))
    ∧ (∀ dr2 : DetectionResult,
        YOLODetectionProcessor.run_inference debug results = some dr2 → dr2 = dr) := by
  obtain ⟨dbx, dsc, dci, dcn⟩ := dr
  obtain ⟨r, rest, bx, rfl, hb, hrn, hbx, hsc, hci⟩ :=
    run_inference_inv debug _ _ h
  dsimp only at hbx hsc hci hrn ⊢
  subst hci
  obtain ⟨hlen, hidx⟩ := resolveNames_spec _ _ hrn
  have hmain : ∀ (i : Nat) (hi : i < (bx.preds.map (·.cls)).length)
      (hj : i < dcn.length),
      pyGet cocoClasses ((bx.preds.map (·.cls)).get ⟨i, hi⟩) =
        some (dcn.get ⟨i, hj⟩) := hidx
  refine ⟨hlen, hmain, ?_, ?_⟩
  · intro i hi hj hpos
    have := hmain i hi hj
    rwa [pyGet_nonneg _ _ hpos] at this
  · intro dr2 h2
    rw [h] at h2
    exact (Option.some.inj h2).symm

/-- C10, confirmed: class-name resolution indexes the class table with the
raw integer id and no range check — a prediction whose id is at least 80
makes the lookup raise `IndexError`, the enclosing handler turns the whole
call into `None` (no `DetectionResult`), while an id in [-80, 0) silently
resolves through negative indexing to a name taken from the end of the
table. -/
theorem C10_no_range_check :
    (∀ (debug : Bool) (bx : RawBoxes) (rest : List RawResult),
      (∃ p ∈ bx.preds, (cocoClasses.length : Int) ≤ p.cls) →
      YOLODetectionProcessor.run_inference debug ({boxes := some bx} :: rest) = none)
    ∧ (∀ (debug : Bool) (b : Rat × Rat × Rat × Rat) (c : Rat) (id : Int)
        (rest : List RawResult),
        -(cocoClasses.length : Int) ≤ id → id < 0 →
        YOLODetectionProcessor.run_inference debug
            ({boxes := some ⟨[⟨b, c, id⟩]⟩} :: rest) =
          some ⟨[b], [c], [id],
            [cocoClasses.getD ((cocoClasses.length : Int) + id).toNat ""]⟩) := by
  constructor
  · rintro debug bx rest ⟨p, hmem, hge⟩
    have hfail : pyGet cocoClasses p.cls = none := pyGet_ge_len _ _ hge
    have hnone : resolveNames (bx.preds.map (·.cls)) = none :=
      resolveNames_none _ p.cls (List.mem_map_of_mem _ hmem) hfail
    simp [YOLODetectionProcessor.run_inference, hnone]
  · intro debug b c id rest h1 h2
    have hlt : ((cocoClasses.length : Int) + id).toNat < cocoClasses.length := by
      omega
    have hg : cocoClasses.get? ((cocoClasses.length : Int) + id).toNat =
        some (cocoClasses.getD ((cocoClasses.length : Int) + id).toNat "") := by
      rw [List.getD_eq_get?, List.get?_eq_get hlt]
      rfl
    have hpg : pyGet cocoClasses id =
        some (cocoClasses.getD ((cocoClasses.length : Int) + id).toNat "") :=
      (pyGet_neg cocoClasses id h1 h2).trans hg
    simp [YOLODetectionProcessor.run_inference, resolveNames, hpg]

/-- C10 witness: a prediction with id 80 produces no result, while id -1
silently resolves to the last table entry, "toothbrush". -/
theorem C10_no_range_check_w :
    YOLODetectionProcessor.run_inference false
        [{boxes := some ⟨[⟨(0, 0, 1, 1), 0, 80⟩]⟩}] = none
    ∧ YOLODetectionProcessor.run_inference false
        [{boxes := some ⟨[⟨(0, 0, 1, 1), 0, -1⟩]⟩}] =
      some ⟨[(0, 0, 1, 1)], [0], [-1], ["toothbrush"]⟩ := by
  constructor
  · exact C10_no_range_check.1 false ⟨[⟨(0, 0, 1, 1), 0, 80⟩]⟩ []
      ⟨⟨(0, 0, 1, 1), 0, 80⟩, by simp, by decide⟩
  · have h := C10_no_range_check.2 false (0, 0, 1, 1) 0 (-1) []
      (by decide) (by decide)
    exact h.trans (by rfl)

/-- C7 witness: the theorem applied to Scenario A's single-person raw output,
checking the resolved name of item 0 against the table. -/
theorem C7_class_name_resolution_w :
    pyGet cocoClasses
        ((⟨[(10, 10, 50, 50)], [0], [0], ["person"]⟩ :
          DetectionResult).class_ids.get ⟨0, by decide⟩) =
      some ((⟨[(10, 10, 50, 50)], [0], [0], ["person"]⟩ :
          DetectionResult).class_names.get ⟨0, by decide⟩) :=
  (C7_class_name_resolution false [{boxes := some ⟨[⟨(10, 10, 50, 50), 0, 0⟩]⟩}]
      ⟨[(10, 10, 50, 50)], [0], [0], ["person"]⟩ rfl).2.1 0 (by decide) (by decide)

/-- C2, counterexample: a session holding a prior result, with the model
loaded, runs the detect-click handler while the gateway raises; the caught
exception makes `detect_objects` return `None`, and the handler assigns that
`None` to `st.session_state.detection_results`, clearing the prior result
instead of leaving it untouched. -/
theorem C2_cex :
    (runDetectionClick ⟨some ⟨none, []⟩, true, some ⟨"yolov8n.pt"⟩, []⟩
        (LoadOutcome.ok ⟨"yolov8n.pt"⟩) (GatewayOutcome.raises "CUDA error")).detection_results
      ≠ (AppState.mk (some ⟨none, []⟩) true (some ⟨"yolov8n.pt"⟩) []).detection_results := by
  decide

/-- C2, amended: when the gateway raises during the click handler, the
exception is caught and a user-visible error plus the unconditional success
banner are emitted, but `st.session_state.detection_results` is overwritten
with `None` — the prior result is cleared, not preserved. -/
theorem C2_failure_clears_prior (s : AppState) (m : YOLOModel)
    (load : LoadOutcome) (e : String)
    (hl : s.model_loaded = true) (hm : s.model = some m) :
    (runDetectionClick s load (GatewayOutcome.raises e)).detection_results = none
    ∧ (runDetectionClick s load (GatewayOutcome.raises e)).messages =
        s.messages ++ ["検出中にエラーが発生しました: " ++ e, "検出完了！"] := by
  constructor <;>
    simp [runDetectionClick, hl, hm, YOLOModelManager.detect_objects]

/-- C2 witness: the amended statement at a concrete session state holding a
prior result, with the gateway raising a CUDA error. -/
theorem C2_failure_clears_prior_w :
    (runDetectionClick ⟨some ⟨none, []⟩, true, some ⟨"yolov8n.pt"⟩, []⟩
        (LoadOutcome.ok ⟨"yolov8n.pt"⟩)
        (GatewayOutcome.raises "CUDA error")).detection_results = none
    ∧ (runDetectionClick ⟨some ⟨none, []⟩, true, some ⟨"yolov8n.pt"⟩, []⟩
        (LoadOutcome.ok ⟨"yolov8n.pt"⟩)
        (GatewayOutcome.raises "CUDA error")).messages =
      ([] : List String) ++ ["検出中にエラーが発生しました: " ++ "CUDA error", "検出完了！"] :=
  C2_failure_clears_prior ⟨some ⟨none, []⟩, true, some ⟨"yolov8n.pt"⟩, []⟩
    ⟨"yolov8n.pt"⟩ (LoadOutcome.ok ⟨"yolov8n.pt"⟩) "CUDA error" rfl rfl

/-- C6, counterexample: model loading fails (the loader stores no model),
yet after the click handler `st.session_state.model_loaded` is `True` —
partial state IS committed, recording an absent model as loaded. -/
theorem C6_cex :
    (runDetectionClick ⟨none, false, none, []⟩ (LoadOutcome.fails "missing weights")
        (GatewayOutcome.returns [])).model = none
    ∧ (runDetectionClick ⟨none, false, none, []⟩ (LoadOutcome.fails "missing weights")
        (GatewayOutcome.returns [])).model_loaded = true := by
  decide

/-- C6, amended: on a load failure the loader's error is shown, the gateway
is never invoked (the handler's outcome is the same whatever the gateway
would do, and `detect_objects` reports the missing model), and no inference
result is produced — but `st.session_state.model_loaded` is nevertheless set
to `True`, and `detection_results` is overwritten with `None`. -/
theorem C6_load_failure_partial_state (s : AppState) (e : String)
    (gw : GatewayOutcome) (hl : s.model_loaded = false) :
    (runDetectionClick s (LoadOutcome.fails e) gw).model = none
    ∧ (runDetectionClick s (LoadOutcome.fails e) gw).model_loaded = true
    ∧ (runDetectionClick s (LoadOutcome.fails e) gw).detection_results = none
    ∧ (runDetectionClick s (LoadOutcome.fails e) gw).messages =
        s.messages ++ ["モデルの読み込みに失敗しました: " ++ e]
          ++ ["モデルが読み込まれていません", "検出完了！"]
    ∧ (∀ gw' : GatewayOutcome,
        runDetectionClick s (LoadOutcome.fails e) gw' =
          runDetectionClick s (LoadOutcome.fails e) gw) := by
  refine ⟨?_, ?_, ?_, ?_, ?_⟩ <;>
    simp [runDetectionClick, hl, YOLOModelLoader.load_model,
      YOLOModelManager.detect_objects]

/-- C6 witness: the amended statement at a fresh session with the loader
failing on missing weights. -/
theorem C6_load_failure_partial_state_w :
    (runDetectionClick ⟨none, false, none, []⟩ (LoadOutcome.fails "missing weights")
        (GatewayOutcome.returns [])).model = none
    ∧ (runDetectionClick ⟨none, false, none, []⟩ (LoadOutcome.fails "missing weights")
        (GatewayOutcome.returns [])).model_loaded = true
    ∧ (runDetectionClick ⟨none, false, none, []⟩ (LoadOutcome.fails "missing weights")
        (GatewayOutcome.returns [])).detection_results = none
    ∧ (runDetectionClick ⟨none, false, none, []⟩ (LoadOutcome.fails "missing weights")
        (GatewayOutcome.returns [])).messages =
      ([] : List String) ++ ["モデルの読み込みに失敗しました: " ++ "missing weights"]
        ++ ["モデルが読み込まれていません", "検出完了！"]
    ∧ (∀ gw' : GatewayOutcome,
        runDetectionClick ⟨none, false, none, []⟩ (LoadOutcome.fails "missing weights") gw' =
          runDetectionClick ⟨none, false, none, []⟩ (LoadOutcome.fails "missing weights")
            (GatewayOutcome.returns [])) :=
  C6_load_failure_partial_state ⟨none, false, none, []⟩ "missing weights"
    (GatewayOutcome.returns []) rfl

/-- C4, counterexample: on a zero-detection result, statistics computation
DOES raise — `ResultsManager.display_detection_results` divides by
`len(scores)` (a `ZeroDivisionError`) and
`YOLODebugInfo.display_detection_stats` calls `np.max` on the empty score
array (a `ValueError`); neither reports an absent value. -/
theorem C4_cex :
    ResultsManager.display_detection_results ⟨[], [], [], []⟩ =
      Except.error "ZeroDivisionError: division by zero"
    ∧ YOLODebugInfo.display_detection_stats ⟨[], [], [], []⟩ =
      Except.error "ValueError: zero-size array to reduction operation maximum" :=
  ⟨rfl, rfl⟩

/-- C4, amended: only app.py's statistics tab treats an empty result safely,
reporting every confidence aggregate as N/A with an empty per-class section;
the `ResultsManager` and `YOLODebugInfo` display paths both raise on a
zero-detection result instead of reporting an absent value. -/
theorem C4_empty_stats_behavior (dr : DetectionResult) (h : dr.scores = [])
    (r : UltraResult) (hr : r.boxes = some ⟨[]⟩) :
    (∃ e, ResultsManager.display_detection_results dr = Except.error e)
    ∧ (∃ e, YOLODebugInfo.display_detection_stats dr = Except.error e)
    ∧ YOLOApp.display_detection_statistics r =
        ⟨0, Metric.na, Metric.na, Metric.na, []⟩ := by
  refine ⟨⟨"ZeroDivisionError: division by zero", ?_⟩,
    ⟨"ValueError: zero-size array to reduction operation maximum", ?_⟩, ?_⟩
  · simp [ResultsManager.display_detection_results, h]
  · simp [YOLODebugInfo.display_detection_stats, h, npMax, Bind.bind, Except.bind]
  · simp [YOLOApp.display_detection_statistics, hr]

/-- C4 witness: the amended statement at the empty normalized result and an
ultralytics result object with an empty boxes container. -/
theorem C4_empty_stats_behavior_w :
    (∃ e, ResultsManager.display_detection_results ⟨[], [], [], []⟩ = Except.error e)
    ∧ (∃ e, YOLODebugInfo.display_detection_stats ⟨[], [], [], []⟩ = Except.error e)
    ∧ YOLOApp.display_detection_statistics ⟨some ⟨[]⟩, []⟩ =
        ⟨0, Metric.na, Metric.na, Metric.na, []⟩ :=
  C4_empty_stats_behavior ⟨[], [], [], []⟩ rfl ⟨some ⟨[]⟩, []⟩ rfl

lemma sumVals_bumpCount (m : List (String × Nat)) (k : String) :
    sumVals (bumpCount m k) = sumVals m + 1 := by
  induction m with
  | nil => rfl
  | cons p rest ih =>
    obtain ⟨k', c⟩ := p
    by_cases hk : k' = k
    · simp [bumpCount, hk, sumVals]
      omega
    · simp [bumpCount, hk, sumVals] at ih ⊢
      omega

lemma sumVals_foldl (names : List String) (m : List (String × Nat)) :
    sumVals (names.foldl bumpCount m) = sumVals m + names.length := by
  induction names generalizing m with
  | nil => simp
  | cons a as ih =>
    simp only [List.foldl_cons, List.length_cons, ih (bumpCount m a),
      sumVals_bumpCount]
    omega

/-- C8, confirmed: for every non-empty detection result (with one box per
class name, as normalization guarantees), the values of the per-class count
mapping built by the aggregation pass sum to the detection count. -/
theorem C8_per_class_counts_sum (dr : DetectionResult)
    (h1 : dr.class_names ≠ []) (h2 : dr.boxes.length = dr.class_names.length) :
    sumVals (classCounts dr.class_names) = dr.boxes.length := by
  rw [h2]
  unfold classCounts
  rw [sumVals_foldl]
  simp [sumVals]

/-- C8 witness: Scenario C — two detections both resolving to "car". -/
theorem C8_per_class_counts_sum_w :
    sumVals (classCounts (DetectionResult.mk [(0, 0, 1, 1), (0, 0, 2, 2)]
        [0, 0] [2, 2] ["car", "car"]).class_names) =
      (DetectionResult.mk [(0, 0, 1, 1), (0, 0, 2, 2)]
        [0, 0] [2, 2] ["car", "car"]).boxes.length :=
  C8_per_class_counts_sum
    (DetectionResult.mk [(0, 0, 1, 1), (0, 0, 2, 2)] [0, 0] [2, 2] ["car", "car"])
    (by simp) rfl

/-- C9, confirmed: the colour the renderer draws at position `i` is the
cyclic palette entry `colors[i % len(colors)]`, a function of the position
alone — any two detection results (whatever their class ids) receive the
same colour at the same position. -/
theorem C9_color_by_position (dr1 dr2 : DetectionResult) (i : Nat)
    (h1 : i < renderLength dr1) (h2 : i < renderLength dr2) :
    (renderColors dr1).get? i = (renderColors dr2).get? i
    ∧ (renderColors dr1).get? i = some (visColors.getD (i % visColors.length) "") := by
  have e1 : (renderColors dr1).get? i = some (colorAt i) := by
    unfold renderColors
    rw [List.get?_map, List.get?_range h1]
    rfl
  have e2 : (renderColors dr2).get? i = some (colorAt i) := by
    unfold renderColors
    rw [List.get?_map, List.get?_range h2]
    rfl
  exact ⟨e1.trans e2.symm, e1⟩

/-- C9 witness: two different one-item results (a person and a car) get the
identical first colour, the palette's entry 0. -/
theorem C9_color_by_position_w :
    (renderColors ⟨[(0, 0, 1, 1)], [0], [0], ["person"]⟩).get? 0 =
      (renderColors ⟨[(5, 5, 6, 6)], [1], [2], ["car"]⟩).get? 0
    ∧ (renderColors ⟨[(0, 0, 1, 1)], [0], [0], ["person"]⟩).get? 0 =
      some (visColors.getD (0 % visColors.length) "") :=
  C9_color_by_position ⟨[(0, 0, 1, 1)], [0], [0], ["person"]⟩
    ⟨[(5, 5, 6, 6)], [1], [2], ["car"]⟩ 0 (by decide) (by decide)

lemma charListLe_cons (a b : Char) (as bs : List Char) :
    charListLe (a :: as) (b :: bs) = true ↔
      a.toNat < b.toNat ∨ (a.toNat = b.toNat ∧ charListLe as bs = true) := by
  by_cases h1 : a.toNat < b.toNat
  · simp [charListLe, h1]
  · by_cases h2 : b.toNat < a.toNat
    · simp only [charListLe, if_neg h1, if_pos h2]
      constructor
      · intro hF
        exact absurd hF (by simp)
      · rintro (h | ⟨he, _⟩) <;> omega
    · have he : a.toNat = b.toNat := by omega
      simp [charListLe, h1, h2, he]

lemma charListLe_total : ∀ as bs : List Char,
    charListLe as bs = true ∨ charListLe bs as = true := by
  intro as
  induction as with
  | nil => intro bs; left; rfl
  | cons a as ih =>
    intro bs
    cases bs with
    | nil => right; rfl
    | cons b bs' =>
      rcases Nat.lt_trichotomy a.toNat b.toNat with h | h | h
      · exact Or.inl ((charListLe_cons a b as bs').mpr (Or.inl h))
      · rcases ih bs' with h2 | h2
        · exact Or.inl ((charListLe_cons a b as bs').mpr (Or.inr ⟨h, h2⟩))
        · exact Or.inr ((charListLe_cons b a bs' as).mpr (Or.inr ⟨h.symm, h2⟩))
      · exact Or.inr ((charListLe_cons b a bs' as).mpr (Or.inl h))

lemma charListLe_trans : ∀ as bs cs : List Char,
    charListLe as bs = true → charListLe bs cs = true →
    charListLe as cs = true := by
  intro as
  induction as with
  | nil => intro bs cs _ _; rfl
  | cons a as ih =>
    intro bs cs h1 h2
    cases bs with
    | nil => exact absurd h1 (by simp [charListLe])
    | cons b bs' =>
      cases cs with
      | nil => exact absurd h2 (by simp [charListLe])
      | cons c cs' =>
        rcases (charListLe_cons a b as bs').mp h1 with hab | ⟨hab, hab2⟩ <;>
          rcases (charListLe_cons b c bs' cs').mp h2 with hbc | ⟨hbc, hbc2⟩
        · exact (charListLe_cons a c as cs').mpr (Or.inl (by omega))
        · exact (charListLe_cons a c as cs').mpr (Or.inl (by omega))
        · exact (charListLe_cons a c as cs').mpr (Or.inl (by omega))
        · exact (charListLe_cons a c as cs').mpr
            (Or.inr ⟨by omega, ih bs' cs' hab2 hbc2⟩)

lemma pySortedDescByCount_sorted (l : List (String × Nat)) :
    (pySortedDescByCount l).Pairwise (fun a b => b.2 ≤ a.2) := by
  haveI : IsTotal (String × Nat) (fun a b => b.2 ≤ a.2) :=
    ⟨fun a b => Nat.le_total b.2 a.2⟩
  haveI : IsTrans (String × Nat) (fun a b => b.2 ≤ a.2) :=
    ⟨fun a b c hab hbc => Nat.le_trans hbc hab⟩
  exact List.sorted_insertionSort _ l

lemma npUniqueCounts_sorted (names : List String) :
    (npUniqueCounts names).Pairwise
      (fun a b => pyStrLe a.1 b.1 = true ∧ a.1 ≠ b.1) := by
  haveI : IsTotal String (fun a b => pyStrLe a b = true) :=
    ⟨fun a b => charListLe_total a.data b.data⟩
  haveI : IsTrans String (fun a b => pyStrLe a b = true) :=
    ⟨fun a b c => charListLe_trans a.data b.data c.data⟩
  have hsorted : (List.insertionSort (fun a b => pyStrLe a b = true)
      names.dedup).Pairwise (fun a b => pyStrLe a b = true) :=
    List.sorted_insertionSort _ _
  have hnodup : (List.insertionSort (fun a b => pyStrLe a b = true)
      names.dedup).Nodup :=
    ((List.perm_insertionSort _ _).nodup_iff).mpr names.nodup_dedup
  have hboth := hsorted.and hnodup
  unfold npUniqueCounts
  rw [List.pairwise_map]
  exact hboth.imp (fun h => ⟨h.1, h.2⟩)

lemma bumpCount_keys (m : List (String × Nat)) (k : String) :
    (bumpCount m k).map Prod.fst =
      if k ∈ m.map Prod.fst then m.map Prod.fst
      else m.map Prod.fst ++ [k] := by
  induction m with
  | nil => rfl
  | cons p rest ih =>
    obtain ⟨k', c⟩ := p
    by_cases hk : k' = k
    · subst hk
      simp [bumpCount]
    · by_cases hm : k ∈ rest.map Prod.fst
      · simp [bumpCount, hk, ih, hm, Ne.symm hk]
      · simp [bumpCount, hk, ih, hm, Ne.symm hk]

lemma bumpCount_keys_nodup (m : List (String × Nat)) (k : String)
    (h : (m.map Prod.fst).Nodup) : ((bumpCount m k).map Prod.fst).Nodup := by
  rw [bumpCount_keys]
  by_cases hm : k ∈ m.map Prod.fst
  · simpa [hm] using h
  · rw [if_neg hm, ← List.concat_eq_append]
    exact List.Nodup.concat hm h

lemma classCounts_keys_nodup_aux (names : List String)
    (m : List (String × Nat)) (h : (m.map Prod.fst).Nodup) :
    ((names.foldl bumpCount m).map Prod.fst).Nodup := by
  induction names generalizing m with
  | nil => simpa using h
  | cons a as ih => exact ih (bumpCount m a) (bumpCount_keys_nodup m a h)

/-- C5, counterexample: the displayed per-class orders diverge from the
specified descending-count / ascending-name order.
`YOLODebugInfo.display_detection_stats` enumerates via `np.unique`, i.e. by
ascending class name regardless of count: for names
["zebra", "apple", "zebra"] it emits apple before the twice-detected zebra.
`YOLOApp._display_detection_statistics` sorts only by descending count and
breaks the tie in ["zebra", "apple"] by insertion order, emitting zebra
before apple, not in ascending name order. -/
theorem C5_cex :
    npUniqueCounts ["zebra", "apple", "zebra"] = [("apple", 1), ("zebra", 2)]
    ∧ specDisplayOrder (classCounts ["zebra", "apple", "zebra"]) =
        [("zebra", 2), ("apple", 1)]
    ∧ npUniqueCounts ["zebra", "apple", "zebra"] ≠
        specDisplayOrder (classCounts ["zebra", "apple", "zebra"])
    ∧ pySortedDescByCount (classCounts ["zebra", "apple"]) =
        [("zebra", 1), ("apple", 1)]
    ∧ specDisplayOrder (classCounts ["zebra", "apple"]) =
        [("apple", 1), ("zebra", 1)]
    ∧ pySortedDescByCount (classCounts ["zebra", "apple"]) ≠
        specDisplayOrder (classCounts ["zebra", "apple"]) := by
  decide

/-- C5, amended: each display site enumerates the per-class counts in its
own deterministic order, but none matches the claimed policy — app.py sorts
by descending count with ties left in first-insertion order (the output is
weakly descending by count), `YOLODebugInfo` emits strictly ascending by
class name ignoring counts, and `ResultsManager` emits the mapping itself in
first-occurrence order (whose keys are pairwise distinct). -/
theorem C5_display_orderings :
    (∀ l : List (String × Nat),
      (pySortedDescByCount l).Pairwise (fun a b => b.2 ≤ a.2))
    ∧ (∀ names : List String,
        (npUniqueCounts names).Pairwise
          (fun a b => pyStrLe a.1 b.1 = true ∧ a.1 ≠ b.1))
    ∧ (∀ names : List String, ((classCounts names).map Prod.fst).Nodup) :=
  ⟨pySortedDescByCount_sorted, npUniqueCounts_sorted,
   fun names => classCounts_keys_nodup_aux names [] (by simp)⟩
